/-
Verification of the DeskFriend persistence core (src/models.py,
src/clipboard_manager.py, src/ui/search_window.py) against its
natural-language specification.

Shallow embedding conventions:
- Python `None` becomes `Option.none`; a Python dict read by the code is
  embedded as a record whose fields are `Option`-valued (a missing key is
  `none`; for values where the code treats `None` and a missing key alike
  via `dict.get`, the two are conflated into one `none`).
- Nondeterministic inputs (`uuid.uuid4()`, `datetime.now()`) are passed in
  as explicit string parameters (`fid`, `now`, or a supply `Nat → String`).
- A Python statement that can raise is embedded as an `Option`-returning
  function; `none` is the raised exception.
- Python string truthiness (`x or default` on an optional string) is
  `pyOrS`; `str.strip` is `pyStrip` (ASCII whitespace); `str.lower` is
  `pyLower` (ASCII case folding); the substring test `a in b` is `pyIn`.
-/
import Mathlib

/-- Python `x or default` for an optional string: `None` and `""` are falsy. -/
def pyOrS : Option String → String → String
  | some s, d => if s = "" then d else s
  | none, d => d

/-- Python whitespace characters recognised by `str.strip` (ASCII subset). -/
def pyIsSpace (c : Char) : Bool :=
  c = ' ' || c = '\t' || c = '\n' || c = '\r' || c = '\x0b' || c = '\x0c'

/-- Python `str.strip()` for ASCII whitespace. -/
def pyStrip (s : String) : String :=
  ⟨((s.toList.dropWhile pyIsSpace).reverse.dropWhile pyIsSpace).reverse⟩

/-- Python `str.lower()` (ASCII case folding; the data in all claims is ASCII). -/
def pyLower (s : String) : String :=
  s.map Char.toLower

/-- Does `needle` occur at the head of `hay`? -/
def matchesAt : List Char → List Char → Bool
  | [], _ => true
  | _ :: _, [] => false
  | c :: n, d :: h => c = d && matchesAt n h

/-- Does `needle` occur anywhere in `hay`? -/
def hasSub (needle : List Char) : List Char → Bool
  | [] => matchesAt needle []
  | c :: t => matchesAt needle (c :: t) || hasSub needle t

/-- Python `needle in hay` on strings (substring containment). -/
def pyIn (needle hay : String) : Bool :=
  hasSub needle.toList hay.toList

/-- `ListItem` from src/models.py: a single item in a todo list. -/
structure ListItem where
  id : String
  text : String
  created_at : String
  modified_at : String
  validated_at : Option String
  is_validated : Bool
deriving DecidableEq, Repr

/-- `ListItem.__init__`: `fid` stands for the fresh `str(uuid.uuid4())`, `now`
for `datetime.now().isoformat()`; the `or`-defaults follow the source. -/
def ListItem.init (text : String) (item_id created_at modified_at validated_at : Option String)
    (is_validated : Bool) (fid now : String) : ListItem :=
  let c := pyOrS created_at now
  { id := pyOrS item_id fid
    text := text
    created_at := c
    modified_at := pyOrS modified_at c
    validated_at := validated_at
    is_validated := is_validated }

/-- `ListItem(text)` — creation with all defaults. -/
def ListItem.create (text fid now : String) : ListItem :=
  ListItem.init text none none none none false fid now

/-- `ListItem.validate`: mark item as validated. -/
def ListItem.validate (it : ListItem) (now : String) : ListItem :=
  { it with is_validated := true, validated_at := some now }

/-- `ListItem.unvalidate`: mark item as not validated. -/
def ListItem.unvalidate (it : ListItem) : ListItem :=
  { it with is_validated := false, validated_at := none }

/-- `ListItem.update_text`: update text and modification timestamp. -/
def ListItem.updateText (it : ListItem) (new_text now : String) : ListItem :=
  { it with text := new_text, modified_at := now }

/-- The dictionary produced by `ListItem.to_dict` and consumed by
`ListItem.from_dict`; every field optional because `from_dict` uses
`dict.get` (except `text`, accessed with `data["text"]`, modelled below). -/
structure ItemRecord where
  id : Option String := none
  text : Option String := none
  created_at : Option String := none
  modified_at : Option String := none
  validated_at : Option String := none
  is_validated : Option Bool := none
deriving DecidableEq, Repr

/-- `ListItem.to_dict`. -/
def ListItem.toDict (it : ListItem) : ItemRecord :=
  { id := some it.id
    text := some it.text
    created_at := some it.created_at
    modified_at := some it.modified_at
    validated_at := it.validated_at
    is_validated := some it.is_validated }

/-- `ListItem.from_dict`: `data["text"]` raises (`none`) when the key is
missing; every other field goes through `dict.get` and the `__init__`
defaults. -/
def ListItem.fromDict (r : ItemRecord) (fid now : String) : Option ListItem :=
  match r.text with
  | none => none
  | some t => some (ListItem.init t r.id r.created_at r.modified_at r.validated_at
      (r.is_validated.getD false) fid now)

/-- `TodoList` from src/models.py. -/
structure TodoList where
  id : String
  name : String
  color : String
  items : List ListItem
deriving DecidableEq, Repr

/-- `TodoList.__init__` (`fid` is the fresh uuid used when `list_id` is falsy). -/
def TodoList.init (name color : String) (list_id : Option String)
    (items : Option (List ListItem)) (fid : String) : TodoList :=
  { id := pyOrS list_id fid
    name := name
    color := color
    items := items.getD [] }

/-- `TodoList.add_item`: append a freshly created item. -/
def TodoList.addItem (tl : TodoList) (text fid now : String) : TodoList :=
  { tl with items := tl.items ++ [ListItem.create text fid now] }

/-- `TodoList.remove_item`. -/
def TodoList.removeItem (tl : TodoList) (item_id : String) : TodoList :=
  { tl with items := tl.items.filter (fun it => it.id ≠ item_id) }

/-- `TodoList.get_item`: first item with the id, else absent. -/
def TodoList.getItem (tl : TodoList) (item_id : String) : Option ListItem :=
  tl.items.find? (fun it => it.id = item_id)

/-- The dictionary produced by `TodoList.to_dict` / consumed by `from_dict`. -/
structure ListRecord where
  id : Option String := none
  name : Option String := none
  color : Option String := none
  items : Option (List ItemRecord) := none
deriving DecidableEq, Repr

/-- `TodoList.to_dict`. -/
def TodoList.toDict (tl : TodoList) : ListRecord :=
  { id := some tl.id
    name := some tl.name
    color := some tl.color
    items := some (tl.items.map ListItem.toDict) }

/-- The list comprehension `[ListItem.from_dict(d) for d in data.get("items", [])]`:
item `k` of the list consumes `fresh (k+1)`; any failing element raises. -/
def itemsFromRecords (fresh : Nat → String) (now : String) :
    List ItemRecord → Nat → Option (List ListItem)
  | [], _ => some []
  | r :: rest, k =>
    match ListItem.fromDict r (fresh k) now with
    | none => none
    | some it => (itemsFromRecords fresh now rest (k + 1)).map (fun l => it :: l)

/-- `TodoList.from_dict`: `data["name"]` / `data["color"]` raise when missing;
`fresh 0` is the uuid used when `id` is falsy, `fresh (k+1)` the one for item `k`. -/
def TodoList.fromDict (r : ListRecord) (fresh : Nat → String) (now : String) :
    Option TodoList :=
  match itemsFromRecords fresh now (r.items.getD []) 1 with
  | none => none
  | some its =>
    match r.name, r.color with
    | some n, some c => some (TodoList.init n c r.id (some its) (fresh 0))
    | _, _ => none

/-- `AppSettings` from src/models.py. -/
structure AppSettings where
  clipboard_enabled : Bool := false
  window_position : List Int := [100, 100]
  last_list_id : Option String := none
  window_visible : Bool := true
deriving DecidableEq, Repr

/-- The `"settings"` dictionary. -/
structure SettingsRecord where
  clipboard_enabled : Option Bool := none
  window_position : Option (List Int) := none
  last_list_id : Option String := none
  window_visible : Option Bool := none
deriving DecidableEq, Repr

/-- `AppSettings.to_dict`. -/
def AppSettings.toDict (s : AppSettings) : SettingsRecord :=
  { clipboard_enabled := some s.clipboard_enabled
    window_position := some s.window_position
    last_list_id := s.last_list_id
    window_visible := some s.window_visible }

/-- `AppSettings.from_dict` followed by `__init__`; an empty
`window_position` tuple is falsy in `window_position or (100, 100)`. -/
def AppSettings.fromDict (r : SettingsRecord) : AppSettings :=
  { clipboard_enabled := r.clipboard_enabled.getD false
    window_position :=
      let w := r.window_position.getD [100, 100]
      if w = [] then [100, 100] else w
    last_list_id := r.last_list_id
    window_visible := r.window_visible.getD true }

/-- The in-memory state of `DataManager` (the Store): settings, regular
lists and the optional clipboard list. The `data_file` path is not part of
the observable state modelled here. -/
structure Store where
  settings : AppSettings := {}
  lists : List TodoList := []
  clipboard_list : Option TodoList := none
deriving DecidableEq, Repr

/-- `DataManager.CLIPBOARD_LIST_ID`. -/
def CLIPBOARD_LIST_ID : String := "clipboard_list"

/-- `DataManager.__init__`: the default Store state. -/
def Store.defaultStore : Store := {}

/-- The JSON file content as parsed by `json.load` in `DataManager.load`. -/
structure FileData where
  settings : Option SettingsRecord := none
  lists : Option (List ListRecord) := none
deriving DecidableEq, Repr

/-- What `DataManager.load` finds: a missing file, a file `json.load`
rejects (or any other IO failure while reading), or parsed JSON data. -/
inductive FileInput where
  | missing : FileInput
  | unparseable : FileInput
  | parsed : FileData → FileInput
deriving DecidableEq, Repr

/-- The `for list_data in data.get("lists", [])` loop of `DataManager.load`:
`self.lists` starts empty and each successfully converted non-clipboard
record is appended; `list_data["id"]` raises on a record without `"id"`, and
a failing `TodoList.from_dict` raises; either exception aborts the loop,
leaving the lists appended so far (second component `false`). List `k` of
the file consumes the uuid supply `fresh k`. -/
def loadLoop (fresh : Nat → Nat → String) (now : String) :
    List ListRecord → Nat → List TodoList → List TodoList × Bool
  | [], _, acc => (acc, true)
  | r :: rest, k, acc =>
    match r.id with
    | none => (acc, false)
    | some i =>
      if i = CLIPBOARD_LIST_ID then loadLoop fresh now rest (k + 1) acc
      else
        match TodoList.fromDict r (fresh k) now with
        | none => (acc, false)
        | some l => loadLoop fresh now rest (k + 1) (acc ++ [l])

/-- `DataManager.load`: no-op when the file is missing; the whole body is in
a `try`/`except` that logs and returns, so a raise anywhere leaves exactly
the mutations already performed. `fresh`/`freshCb` are the uuid supplies for
the regular lists and for the clipboard record, `now` the timestamp supply. -/
def Store.load (st : Store) (input : FileInput) (fresh : Nat → Nat → String)
    (freshCb : Nat → String) (now : String) : Store :=
  match input with
  | FileInput.missing => st
  | FileInput.unparseable => st
  | FileInput.parsed d =>
    let s := AppSettings.fromDict (d.settings.getD {})
    let st1 : Store := { st with settings := s, lists := [] }
    let r := loadLoop fresh now (d.lists.getD []) 0 []
    let st2 : Store := { st1 with lists := r.1 }
    if r.2 = false then st2
    else if s.clipboard_enabled = false then st2
    else
      match (d.lists.getD []).find? (fun lr => lr.id = some CLIPBOARD_LIST_ID) with
      | some cr =>
        match TodoList.fromDict cr freshCb now with
        | some cl => { st2 with clipboard_list := some cl }
        | none => st2
      | none =>
        let fallback := TodoList.init "ClipBoard" "#808080" (some CLIPBOARD_LIST_ID) none ""
        { st2 with clipboard_list := some fallback }

/-- `DataManager.save`: the file content written (the store itself is not
mutated by `save`; IO failures only affect the file, not the state). -/
def Store.save (st : Store) : FileData :=
  let all := st.lists ++
    (match st.clipboard_list with
     | some cl => if st.settings.clipboard_enabled then [cl] else []
     | none => [])
  { settings := some st.settings.toDict
    lists := some (all.map TodoList.toDict) }

/-- `DataManager.add_list`: construct, append, persist; returns the new list. -/
def Store.addList (st : Store) (name color fid : String) : Store × TodoList :=
  let l := TodoList.init name color none none fid
  ({ st with lists := st.lists ++ [l] }, l)

/-- `DataManager.remove_list`: filter by id, persist. -/
def Store.removeList (st : Store) (list_id : String) : Store :=
  { st with lists := st.lists.filter (fun l => l.id ≠ list_id) }

/-- `DataManager.get_list`: the clipboard id is special-cased before the
linear search of `lists`. -/
def Store.getList (st : Store) (list_id : String) : Option TodoList :=
  if list_id = CLIPBOARD_LIST_ID then st.clipboard_list
  else st.lists.find? (fun l => l.id = list_id)

/-- `DataManager.get_all_lists`: `lists` plus the clipboard list when it
exists and capture is enabled. -/
def Store.getAllLists (st : Store) : List TodoList :=
  st.lists ++
    (match st.clipboard_list with
     | some cl => if st.settings.clipboard_enabled then [cl] else []
     | none => [])

/-- `DataManager.enable_clipboard`: set the flag, synthesize the clipboard
list only when absent, persist. -/
def Store.enableClipboard (st : Store) : Store :=
  let st1 : Store := { st with settings := { st.settings with clipboard_enabled := true } }
  match st.clipboard_list with
  | some _ => st1
  | none =>
    let fresh := TodoList.init "ClipBoard" "#808080" (some CLIPBOARD_LIST_ID) none ""
    { st1 with clipboard_list := some fresh }

/-- `DataManager.disable_clipboard`: clear the flag, keep the list object. -/
def Store.disableClipboard (st : Store) : Store :=
  { st with settings := { st.settings with clipboard_enabled := false } }

/-- Mutating an item of a named list in place (the UI holds an alias into
`Store.lists`; in the immutable embedding the containing list is rebuilt). -/
def Store.addItem (st : Store) (list_id text fid now : String) : Store :=
  { st with lists := st.lists.map (fun l =>
      if l.id = list_id then l.addItem text fid now else l) }

/-- Validate the item with id `item_id` of the list with id `list_id`. -/
def Store.validateItem (st : Store) (list_id item_id now : String) : Store :=
  { st with lists := st.lists.map (fun l =>
      if l.id = list_id then
        { l with items := l.items.map (fun it =>
            if it.id = item_id then it.validate now else it) }
      else l) }

/-- `ClipboardManager` observable state: the Store it mutates and
`self.last_text`. -/
structure CMState where
  dm : Store
  last_text : String
deriving DecidableEq, Repr

/-- `ClipboardManager.on_clipboard_changed`, with the clipboard text read
during the notification passed in as `text` (and the fresh uuid/timestamp
for the appended item as `fid`/`now`). -/
def CMState.onClipboardChanged (s : CMState) (text fid now : String) : CMState :=
  if ¬ s.dm.settings.clipboard_enabled then s
  else match s.dm.clipboard_list with
  | none => s
  | some cl =>
    if text = "" || text = s.last_text then s
    else if pyStrip text = "" then s
    else
      let s1 : CMState := { s with last_text := text }
      if cl.items.any (fun it => it.text = text) then s1
      else
        let cl1 : TodoList := { cl with items := cl.items ++ [ListItem.create text fid now] }
        { s1 with dm := { s1.dm with clipboard_list := some cl1 } }

/-- A naive date-time as produced by `datetime.fromisoformat` on the naive
timestamps this application stores (no timezone offsets; fractional seconds
are parsed and discarded since `%d/%m/%Y %H:%M:%S` does not show them). -/
structure PyDateTime where
  year : Nat
  month : Nat
  day : Nat
  hour : Nat
  minute : Nat
  second : Nat
deriving DecidableEq, Repr

/-- Days in a month, with the Gregorian leap rule (as `datetime` validates). -/
def daysInMonth (y m : Nat) : Nat :=
  if m = 2 then
    if y % 4 = 0 && (y % 100 ≠ 0 || y % 400 = 0) then 29 else 28
  else if m = 4 || m = 6 || m = 9 || m = 11 then 30
  else 31

/-- Two decimal digits to a number. -/
def twoDigits : List Char → Option Nat
  | [a, b] =>
    if a.isDigit && b.isDigit then some ((a.toNat - 48) * 10 + (b.toNat - 48)) else none
  | _ => none

/-- The `HH[:MM[:SS[.fff[fff]]]]` time part accepted by
`datetime.fromisoformat` (naive forms). -/
def parseIsoTime (cs : List Char) : Option (Nat × Nat × Nat) :=
  let checked : Nat → Nat → Nat → Option (Nat × Nat × Nat) := fun h m s =>
    if h ≤ 23 && m ≤ 59 && s ≤ 59 then some (h, m, s) else none
  match cs with
  | [h1, h2] => (twoDigits [h1, h2]).bind (fun h => checked h 0 0)
  | [h1, h2, ':', m1, m2] =>
    (twoDigits [h1, h2]).bind fun h =>
      (twoDigits [m1, m2]).bind fun m => checked h m 0
  | h1 :: h2 :: ':' :: m1 :: m2 :: ':' :: s1 :: s2 :: rest =>
    (twoDigits [h1, h2]).bind fun h =>
      (twoDigits [m1, m2]).bind fun m =>
        (twoDigits [s1, s2]).bind fun s =>
          match rest with
          | [] => checked h m s
          | '.' :: frac =>
            if (frac.length = 3 || frac.length = 6) && frac.all Char.isDigit then
              checked h m s
            else none
          | _ => none
  | _ => none

/-- `datetime.fromisoformat` on the naive `YYYY-MM-DD[*HH[:MM[:SS[.ffffff]]]]`
strings this application produces and stores; anything else (including
timezone-offset forms, which the stored data never contains) is a parse
failure. -/
def parseIso (s : String) : Option PyDateTime :=
  match s.toList with
  | y1 :: y2 :: y3 :: y4 :: '-' :: m1 :: m2 :: '-' :: d1 :: d2 :: rest =>
    if [y1, y2, y3, y4].all Char.isDigit then
      (twoDigits [m1, m2]).bind fun mo =>
        (twoDigits [d1, d2]).bind fun dy =>
          let yr := (y1.toNat - 48) * 1000 + (y2.toNat - 48) * 100 +
            (y3.toNat - 48) * 10 + (y4.toNat - 48)
          if 1 ≤ yr && 1 ≤ mo && mo ≤ 12 && 1 ≤ dy && dy ≤ daysInMonth yr mo then
            match rest with
            | [] => some ⟨yr, mo, dy, 0, 0, 0⟩
            | _ :: timecs =>
              (parseIsoTime timecs).map fun t => ⟨yr, mo, dy, t.1, t.2.1, t.2.2⟩
          else none
    else none
  | _ => none

/-- Zero-padded two-digit rendering (`%d`, `%m`, `%H`, `%M`, `%S`). -/
def pad2 (n : Nat) : String :=
  if n < 10 then "0" ++ toString n else toString n

/-- Zero-padded four-digit rendering (`%Y`). -/
def pad4 (n : Nat) : String :=
  if n < 10 then "000" ++ toString n
  else if n < 100 then "00" ++ toString n
  else if n < 1000 then "0" ++ toString n
  else toString n

/-- `dt.strftime('%d/%m/%Y %H:%M:%S')`. -/
def formatDt (dt : PyDateTime) : String :=
  pad2 dt.day ++ "/" ++ pad2 dt.month ++ "/" ++ pad4 dt.year ++ " " ++
    pad2 dt.hour ++ ":" ++ pad2 dt.minute ++ ":" ++ pad2 dt.second

/-- `SearchWindow.search_in_timestamp`: parse, format, substring test; any
parse failure is caught and reported as no match. -/
def searchInTimestamp (query ts : String) : Bool :=
  match parseIso ts with
  | none => false
  | some dt => pyIn query (pyLower (formatDt dt))

/-- Which field of an item a search result matched (the `match_type` labels
"Texte" / "Date de création" / "Date de modification" / "Date de validation"). -/
inductive MatchField where
  | text : MatchField
  | created : MatchField
  | modified : MatchField
  | validated : MatchField
deriving DecidableEq, Repr

/-- The per-item body of the `perform_search` loops: the first matching
field in source order wins (each branch ends in `continue`); the modified
timestamp is only examined when it differs from the created one, and the
validated timestamp only when truthy. -/
def matchItem (ql : String) (it : ListItem) : Option MatchField :=
  if pyIn ql (pyLower it.text) then some MatchField.text
  else if searchInTimestamp ql it.created_at then some MatchField.created
  else if it.modified_at ≠ it.created_at && searchInTimestamp ql it.modified_at then
    some MatchField.modified
  else match it.validated_at with
    | some v => if v ≠ "" && searchInTimestamp ql v then some MatchField.validated else none
    | none => none

/-- `SearchWindow.perform_search`: each result carries the owning list id,
the item id and the matched field (what `add_result` stores). -/
def performSearch (st : Store) (query : String) : List (String × String × MatchField) :=
  if pyStrip query = "" then []
  else
    let ql := pyLower query
    st.getAllLists.flatMap fun tl =>
      tl.items.filterMap fun it =>
        (matchItem ql it).map fun f => (tl.id, it.id, f)

/-- Items reachable through the public Item operations: creation, text
update, validate/unvalidate, and deserialization of a serialized reachable
item (with arbitrary fresh uuid/timestamp inputs at every step). -/
inductive ReachableItem : ListItem → Prop where
  | create : ∀ text fid now, ReachableItem (ListItem.create text fid now)
  | update : ∀ it t now, ReachableItem it → ReachableItem (it.updateText t now)
  | validate : ∀ it now, ReachableItem it → ReachableItem (it.validate now)
  | unvalidate : ∀ it, ReachableItem it → ReachableItem it.unvalidate
  | deser : ∀ it fid now it2, ReachableItem it →
      ListItem.fromDict it.toDict fid now = some it2 → ReachableItem it2

lemma fromDict_toDict_validated (it : ListItem) (fid now : String) (it2 : ListItem)
    (h : ListItem.fromDict it.toDict fid now = some it2) :
    it2.validated_at = it.validated_at ∧ it2.is_validated = it.is_validated := by
  simp only [ListItem.fromDict, ListItem.toDict, Option.getD_some, Option.some.injEq] at h
  subst h
  simp [ListItem.init]

/-- C1: every Item reachable through the public operations satisfies
`is_validated = true` iff `validated_at` is non-null. -/
theorem reachable_validated_invariant (it : ListItem) (h : ReachableItem it) :
    it.is_validated = true ↔ it.validated_at ≠ none := by
  induction h with
  | create text fid now => simp [ListItem.create, ListItem.init, pyOrS]
  | update it t now _ ih => simpa [ListItem.updateText] using ih
  | validate it now _ _ => simp [ListItem.validate]
  | unvalidate it _ _ => simp [ListItem.unvalidate]
  | deser it fid now it2 _ hdes ih =>
    obtain ⟨hv, hb⟩ := fromDict_toDict_validated it fid now it2 hdes
    rw [hv, hb]
    exact ih

/-- Witness for C1 at a concrete creation. -/
theorem reachable_validated_invariant_witness :
    (ListItem.create "x" "u0" "t0").is_validated = true ↔
      (ListItem.create "x" "u0" "t0").validated_at ≠ none :=
  reachable_validated_invariant (ListItem.create "x" "u0" "t0")
    (ReachableItem.create "x" "u0" "t0")

/-- Well-formedness every Python-constructed `ListItem` enjoys: the
`or`-defaults of `__init__` make `id`, `created_at` and `modified_at`
non-empty, and no operation empties them. -/
def ListItem.wf (it : ListItem) : Prop :=
  it.id ≠ "" ∧ it.created_at ≠ "" ∧ it.modified_at ≠ ""

lemma fromDict_toDict_self (it : ListItem) (fid now : String) (h : it.wf) :
    ListItem.fromDict it.toDict fid now = some it := by
  obtain ⟨h1, h2, h3⟩ := h
  simp only [ListItem.fromDict, ListItem.toDict, Option.getD_some, Option.some.injEq]
  simp [ListItem.init, pyOrS, h1, h2, h3]

lemma itemsFromRecords_toDict (now : String) (fresh : Nat → String) :
    ∀ (l : List ListItem) (k : Nat), (∀ i ∈ l, i.wf) →
      itemsFromRecords fresh now (l.map ListItem.toDict) k = some l := by
  intro l
  induction l with
  | nil => intro k _; rfl
  | cons hd tl ih =>
    intro k hwf
    have hhd : hd.wf := hwf hd (List.mem_cons_self hd tl)
    have htl : ∀ i ∈ tl, i.wf := fun i hi => hwf i (List.mem_cons_of_mem hd hi)
    simp only [List.map_cons, itemsFromRecords, fromDict_toDict_self hd (fresh k) now hhd]
    rw [ih (k + 1) htl]
    rfl

/-- C2: deserializing the serialized form of an Item or a List gives back
the original, field for field and in order. The hypotheses record what is
true of every Python-constructed value: `__init__` never leaves `id`,
`created_at` or `modified_at` empty (empty strings are falsy and replaced
by the `or`-defaults), so the uuid/timestamp regeneration paths are dead. -/
theorem serialize_roundtrip (it : ListItem) (tl : TodoList) (fid now : String)
    (fresh : Nat → String) (hit : it.wf) (htl : tl.id ≠ "")
    (hitems : ∀ i ∈ tl.items, i.wf) :
    ListItem.fromDict it.toDict fid now = some it ∧
      TodoList.fromDict tl.toDict fresh now = some tl := by
  refine ⟨fromDict_toDict_self it fid now hit, ?_⟩
  simp only [TodoList.fromDict, TodoList.toDict, Option.getD_some,
    itemsFromRecords_toDict now fresh tl.items 1 hitems]
  simp [TodoList.init, pyOrS, htl]

/-- Witness for C2 at a concrete item and list. -/
theorem serialize_roundtrip_witness :
    ListItem.fromDict (ListItem.mk "i1" "milk" "t1" "t1" none false).toDict "u" "n" =
        some (ListItem.mk "i1" "milk" "t1" "t1" none false) ∧
      TodoList.fromDict (TodoList.mk "L1" "Work" "#FF0000"
          [ListItem.mk "i1" "milk" "t1" "t1" none false]).toDict (fun _ => "u") "n" =
        some (TodoList.mk "L1" "Work" "#FF0000"
          [ListItem.mk "i1" "milk" "t1" "t1" none false]) :=
  serialize_roundtrip (ListItem.mk "i1" "milk" "t1" "t1" none false)
    (TodoList.mk "L1" "Work" "#FF0000" [ListItem.mk "i1" "milk" "t1" "t1" none false])
    "u" "n" (fun _ => "u")
    (by refine ⟨?_, ?_, ?_⟩ <;> decide)
    (by decide)
    (by intro i hi; simp at hi; subst hi; refine ⟨?_, ?_, ?_⟩ <;> decide)

/-- A well-formed list record for the C3 scenario. -/
def c3good : ListRecord :=
  { id := some "L1", name := some "A", color := some "#111111", items := some [] }

/-- A malformed list record: it has an `"id"` but no `"name"`, so
`TodoList.from_dict` raises a `KeyError` on it. -/
def c3bad : ListRecord := { id := some "L2" }

/-- File content whose settings section parses but whose second list record
is malformed. -/
def c3data : FileData :=
  { settings := some { clipboard_enabled := some true }, lists := some [c3good, c3bad] }

/-- The store `load` leaves behind on that file. -/
def c3after : Store :=
  Store.defaultStore.load (FileInput.parsed c3data) (fun _ _ => "u") (fun _ => "v") "n"

/-- Counterexample to C3: on this file, `load` hits a conversion failure
(the loop aborts, second component `false`), yet the resulting store is not
the default state: the settings mutation and the first appended list are
observable. -/
theorem load_partial_mutation_observable :
    (loadLoop (fun _ _ => "u") "n" [c3good, c3bad] 0 []).2 = false ∧
      c3after.settings.clipboard_enabled = true ∧
      c3after.lists.length = 1 ∧
      c3after ≠ Store.defaultStore := by
  refine ⟨by decide, by decide, by decide, by decide⟩

/-- C3 as amended: `load` is total (never raises to the caller), and when
the failure happens before any mutation — the file is missing, or reading
and `json.load`-parsing it fails — the Store keeps its previous state, so a
Store that was in its default state stays in its default state. (Failures
while converting already-parsed records are also swallowed, but they leave
the mutations made so far in place, as the counterexample shows.) -/
theorem load_early_failure_keeps_state (st : Store) (fresh : Nat → Nat → String)
    (freshCb : Nat → String) (now : String) :
    st.load FileInput.missing fresh freshCb now = st ∧
      st.load FileInput.unparseable fresh freshCb now = st :=
  ⟨rfl, rfl⟩

/-- An item record with text but no `"id"` key. -/
def c4idless : ItemRecord := { text := some "x" }

/-- Counterexample to C4: `from_dict` silently accepts a record with no
`id` field — no error is raised; a fresh uuid is generated for it. -/
theorem fromDict_accepts_idless_record :
    ListItem.fromDict c4idless "fresh0" "now0" =
      some (ListItem.mk "fresh0" "x" "now0" "now0" none false) ∧
      (ListItem.fromDict c4idless "fresh0" "now0").isSome = true := by
  refine ⟨by decide, by decide⟩

/-- C4 as amended: deserialization fails only when `text` is missing;
missing optional fields default as the spec says (`modified_at` to
`created_at`, `validated_at` to null, `is_validated` to false), and a
record with no `id` is silently accepted, its `id` regenerated from a
fresh uuid rather than treated as an error. -/
theorem fromDict_defaults (r : ItemRecord) (fid now : String) :
    ((ListItem.fromDict r fid now).isSome = r.text.isSome) ∧
      (∀ it, ListItem.fromDict r fid now = some it →
        (r.id = none → it.id = fid) ∧
          (r.modified_at = none → it.modified_at = it.created_at) ∧
          (r.validated_at = none → it.validated_at = none) ∧
          (r.is_validated = none → it.is_validated = false)) := by
  constructor
  · cases h : r.text <;> simp [ListItem.fromDict, h]
  · intro it hit
    cases h : r.text with
    | none => simp [ListItem.fromDict, h] at hit
    | some t =>
      simp only [ListItem.fromDict, h, Option.some.injEq] at hit
      subst hit
      refine ⟨?_, ?_, ?_, ?_⟩
      · intro hid; simp [ListItem.init, hid, pyOrS]
      · intro hm; simp [ListItem.init, hm, pyOrS]
      · intro hv; simp [ListItem.init, hv]
      · intro hb; simp [ListItem.init, hb]

/-- Witness for C4-as-amended at the id-less record. -/
theorem fromDict_defaults_witness :
    ((ListItem.fromDict c4idless "f0" "n0").isSome = c4idless.text.isSome) ∧
      ((ListItem.mk "f0" "x" "n0" "n0" none false).id = "f0" ∧
        (ListItem.mk "f0" "x" "n0" "n0" none false).modified_at =
          (ListItem.mk "f0" "x" "n0" "n0" none false).created_at ∧
        (ListItem.mk "f0" "x" "n0" "n0" none false).validated_at = none ∧
        (ListItem.mk "f0" "x" "n0" "n0" none false).is_validated = false) :=
  ⟨(fromDict_defaults c4idless "f0" "n0").1,
    (fromDict_defaults c4idless "f0" "n0").2 (ListItem.mk "f0" "x" "n0" "n0" none false)
      (by decide) |>.imp id (fun h => ⟨h.1 rfl, h.2.1 rfl, h.2.2 rfl⟩) |>.imp
      (fun h => h rfl) id⟩

/-- C5 start state: watcher enabled, empty captured text, empty clipboard list. -/
def c5s0 : CMState :=
  { dm := { settings := { clipboard_enabled := true }
            lists := []
            clipboard_list :=
              some (TodoList.init "ClipBoard" "#808080" (some CLIPBOARD_LIST_ID) none "") }
    last_text := "" }

/-- State after the first four notifications "a", "a", "", "b". -/
def c5s4 : CMState :=
  (((c5s0.onClipboardChanged "a" "i1" "t1").onClipboardChanged "a" "i2" "t2"
    ).onClipboardChanged "" "i3" "t3").onClipboardChanged "b" "i4" "t4"

/-- State after the fifth notification "a". -/
def c5s5 : CMState := c5s4.onClipboardChanged "a" "i5" "t5"

/-- C5: the notification sequence "a", "a", "", "b", "a" appends exactly the
two items "a" then "b"; before the fifth notification the last captured
text is "b" (so the final "a" is not the immediate-duplicate case) and "a"
is already present in the list, so the duplicate-content scan rejects it,
leaving the items unchanged. -/
theorem clipboard_sequence :
    (c5s5.dm.clipboard_list.map fun cl => cl.items.map ListItem.text) = some ["a", "b"] ∧
      c5s4.last_text = "b" ∧
      (c5s4.dm.clipboard_list.map fun cl => cl.items.any fun it => it.text = "a") =
        some true ∧
      (c5s5.dm.clipboard_list.map fun cl => cl.items) =
        (c5s4.dm.clipboard_list.map fun cl => cl.items) := by
  refine ⟨by decide, by decide, by decide, by decide⟩

/-- C7: `get_all_lists` appends the clipboard list exactly when it exists
and capture is enabled; the length is `lists.length + 1` in that case and
`lists.length` otherwise. -/
theorem getAllLists_clipboard (st : Store) :
    (∀ cl, st.clipboard_list = some cl → st.settings.clipboard_enabled = true →
        st.getAllLists = st.lists ++ [cl] ∧
          st.getAllLists.length = st.lists.length + 1) ∧
      (st.settings.clipboard_enabled = false ∨ st.clipboard_list = none →
        st.getAllLists = st.lists ∧ st.getAllLists.length = st.lists.length) := by
  constructor
  · intro cl hcl hen
    simp [Store.getAllLists, hcl, hen]
  · intro h
    rcases h with h | h
    · cases hcl : st.clipboard_list <;> simp [Store.getAllLists, h, hcl]
    · simp [Store.getAllLists, h]

/-- A store with an enabled clipboard list, for the C7 witness. -/
def c7store : Store :=
  { settings := { clipboard_enabled := true }
    lists := [TodoList.mk "L1" "W" "#fff" []]
    clipboard_list := some (TodoList.mk CLIPBOARD_LIST_ID "ClipBoard" "#808080" []) }

/-- Witness for C7 at a concrete store in both regimes. -/
theorem getAllLists_clipboard_witness :
    (c7store.getAllLists = c7store.lists ++
          [TodoList.mk CLIPBOARD_LIST_ID "ClipBoard" "#808080" []] ∧
        c7store.getAllLists.length = c7store.lists.length + 1) ∧
      (c7store.disableClipboard.getAllLists = c7store.disableClipboard.lists ∧
        c7store.disableClipboard.getAllLists.length =
          c7store.disableClipboard.lists.length) :=
  ⟨(getAllLists_clipboard c7store).1
      (TodoList.mk CLIPBOARD_LIST_ID "ClipBoard" "#808080" []) rfl rfl,
    (getAllLists_clipboard c7store.disableClipboard).2 (Or.inl rfl)⟩

/-- C8 scenario: create list "Work", add "buy milk" and "call bob",
validate the first item. -/
def c8state : Store :=
  ((((Store.defaultStore.addList "Work" "#FF0000" "L1").1
      ).addItem "L1" "buy milk" "I1" "T1"
    ).addItem "L1" "call bob" "I2" "T2").validateItem "L1" "I1" "T3"

/-- The store produced by reloading the saved file into a fresh default store. -/
def c8reloaded : Store :=
  Store.defaultStore.load (FileInput.parsed c8state.save) (fun _ _ => "u") (fun _ => "v") "n"

/-- C8: after save and reload, the reloaded store holds the one list with
exactly its two items in the original order, the first validated with a
non-null `validated_at`, and in fact the reloaded lists equal the saved
ones field for field. -/
theorem save_load_scenario :
    c8reloaded.lists.length = 1 ∧
      (c8reloaded.lists.map fun l => l.items.map ListItem.text) =
        [["buy milk", "call bob"]] ∧
      (c8reloaded.lists.map fun l => l.items.map ListItem.is_validated) =
        [[true, false]] ∧
      (c8reloaded.lists.map fun l => l.items.map ListItem.validated_at) =
        [[some "T3", none]] ∧
      c8reloaded.lists = c8state.lists := by
  refine ⟨by decide, by decide, by decide, by decide, by decide⟩

/-- C9: removing a list id that no list carries leaves `lists` unchanged
(and, the operation being total, nothing is raised). -/
theorem removeList_absent_id (st : Store) (list_id : String)
    (h : ∀ l ∈ st.lists, l.id ≠ list_id) :
    (st.removeList list_id).lists = st.lists := by
  simp only [Store.removeList]
  exact List.filter_eq_self.mpr fun l hl => by simpa using h l hl

/-- Witness for C9: a concrete store and an id it does not contain. -/
theorem removeList_absent_id_witness :
    ((Store.mk {} [TodoList.mk "L1" "W" "#fff" []] none).removeList "L2").lists =
      (Store.mk {} [TodoList.mk "L1" "W" "#fff" []] none).lists :=
  removeList_absent_id (Store.mk {} [TodoList.mk "L1" "W" "#fff" []] none) "L2"
    (by intro l hl; simp at hl; subst hl; decide)

/-- C10: `get_list` on the reserved clipboard id returns the clipboard list
object itself (items and all) whether or not capture is enabled — in
particular after `disable_clipboard`, whose only visible effect is that
`get_all_lists` stops appending it; `enable_clipboard` reuses an existing
clipboard list instead of synthesizing a fresh one; and when no clipboard
list was ever created the lookup returns absent. -/
theorem getList_clipboard_id (st : Store) :
    st.getList CLIPBOARD_LIST_ID = st.clipboard_list ∧
      st.disableClipboard.getList CLIPBOARD_LIST_ID = st.clipboard_list ∧
      st.disableClipboard.getAllLists = st.lists ∧
      (∀ cl, st.clipboard_list = some cl → st.enableClipboard.clipboard_list = some cl) := by
  refine ⟨?_, ?_, ?_, ?_⟩
  · simp [Store.getList]
  · simp [Store.getList, Store.disableClipboard]
  · cases h : st.clipboard_list <;> simp [Store.getAllLists, Store.disableClipboard, h]
  · intro cl hcl
    simp [Store.enableClipboard, hcl]

/-- Witness for C10 at a concrete store with a non-empty clipboard list. -/
theorem getList_clipboard_id_witness :
    c7store.getList CLIPBOARD_LIST_ID = c7store.clipboard_list ∧
      c7store.enableClipboard.clipboard_list =
        some (TodoList.mk CLIPBOARD_LIST_ID "ClipBoard" "#808080" []) :=
  ⟨(getList_clipboard_id c7store).1,
    (getList_clipboard_id c7store).2.2.2
      (TodoList.mk CLIPBOARD_LIST_ID "ClipBoard" "#808080" []) rfl⟩

/-- Spec-side predicate: the query occurs case-insensitively in the item
text. -/
def specMatchesText (ql : String) (it : ListItem) : Bool :=
  pyIn ql (pyLower it.text)

/-- Spec-side predicate: the query occurs in the created timestamp
formatted as DD/MM/YYYY HH:MM:SS. -/
def specMatchesCreated (ql : String) (it : ListItem) : Bool :=
  searchInTimestamp ql it.created_at

/-- Spec-side predicate: the query occurs in the modified timestamp
formatted as DD/MM/YYYY HH:MM:SS. -/
def specMatchesModified (ql : String) (it : ListItem) : Bool :=
  searchInTimestamp ql it.modified_at

/-- Spec-side predicate: the item has a validated timestamp and the query
occurs in it formatted as DD/MM/YYYY HH:MM:SS. -/
def specMatchesValidated (ql : String) (it : ListItem) : Bool :=
  match it.validated_at with
  | some v => searchInTimestamp ql v
  | none => false

/-- Spec-side predicate, following the spec's words: the item matches when
the query occurs in its text or in one of its created/modified/validated
timestamps. -/
def specMatches (ql : String) (it : ListItem) : Bool :=
  specMatchesText ql it || specMatchesCreated ql it ||
    specMatchesModified ql it || specMatchesValidated ql it

lemma searchInTimestamp_empty (ql : String) : searchInTimestamp ql "" = false := rfl

/-- The two source-level guards (`modified_at != created_at`, truthiness of
`validated_at`) do not change which items match: `matchItem` is the
first-match-wins cascade over the four spec-side field predicates. -/
lemma matchItem_cases (ql : String) (it : ListItem) :
    matchItem ql it =
      if specMatchesText ql it then some MatchField.text
      else if specMatchesCreated ql it then some MatchField.created
      else if specMatchesModified ql it then some MatchField.modified
      else if specMatchesValidated ql it then some MatchField.validated
      else none := by
  obtain ⟨iid, itext, ic, im, iv, ib⟩ := it
  simp only [matchItem, specMatchesText, specMatchesCreated, specMatchesModified,
    specMatchesValidated]
  by_cases hT : pyIn ql (pyLower itext)
  · simp [hT]
  · simp only [hT, if_false, Bool.false_eq_true]
    by_cases hC : searchInTimestamp ql ic
    · simp [hC]
    · simp only [hC, if_false, Bool.false_eq_true]
      by_cases hM : searchInTimestamp ql im
      · have hne : im ≠ ic := by
          intro he
          rw [he] at hM
          exact hC hM
        simp [hM, hne]
      · simp only [hM, Bool.and_false, if_false, Bool.false_eq_true]
        cases iv with
        | none => simp
        | some v =>
          by_cases hv0 : v = ""
          · subst hv0
            simp [searchInTimestamp_empty]
          · simp [hv0]

lemma matchItem_isSome (ql : String) (it : ListItem) :
    (matchItem ql it).isSome = specMatches ql it := by
  rw [matchItem_cases]
  unfold specMatches
  split_ifs with h1 h2 h3 h4 <;> simp_all

/-- The first-match-wins precedence of `perform_search`: which field a
result reports is determined by the spec-side field predicates in the
fixed order text, created, modified, validated. -/
lemma matchItem_precedence (ql : String) (it : ListItem) :
    (matchItem ql it = some MatchField.text ↔ specMatchesText ql it = true) ∧
      (matchItem ql it = some MatchField.created ↔
        specMatchesText ql it = false ∧ specMatchesCreated ql it = true) ∧
      (matchItem ql it = some MatchField.modified ↔
        specMatchesText ql it = false ∧ specMatchesCreated ql it = false ∧
          specMatchesModified ql it = true) ∧
      (matchItem ql it = some MatchField.validated ↔
        specMatchesText ql it = false ∧ specMatchesCreated ql it = false ∧
          specMatchesModified ql it = false ∧ specMatchesValidated ql it = true) := by
  rw [matchItem_cases]
  split_ifs with h1 h2 h3 h4 <;> simp_all

lemma length_filterMap_le_items (g : ListItem → Option (String × String × MatchField)) :
    ∀ l : List ListItem, (l.filterMap g).length ≤ l.length := by
  intro l
  induction l with
  | nil => simp
  | cons a t ih =>
    rw [List.filterMap_cons]
    cases g a <;> simp <;> omega

lemma performSearch_length_le (st : Store) (query : String) :
    (performSearch st query).length ≤
      (st.getAllLists.map fun tl => tl.items.length).sum := by
  have h : ∀ (ls : List TodoList) (ql : String),
      (ls.flatMap fun tl => tl.items.filterMap fun it =>
        (matchItem ql it).map fun f => (tl.id, it.id, f)).length ≤
        (ls.map fun tl => tl.items.length).sum := by
    intro ls ql
    induction ls with
    | nil => simp
    | cons hd tlr ih =>
      simp only [List.flatMap_cons, List.length_append, List.map_cons, List.sum_cons]
      exact Nat.add_le_add (length_filterMap_le_items _ hd.items) ih
  unfold performSearch
  split
  · simp
  · exact h st.getAllLists (pyLower query)

lemma performSearch_mem (st : Store) (query : String) (hq : ¬ pyStrip query = "")
    (lid iid : String) (f : MatchField) :
    (lid, iid, f) ∈ performSearch st query ↔
      ∃ tl, tl ∈ st.getAllLists ∧ tl.id = lid ∧ ∃ it, it ∈ tl.items ∧ it.id = iid ∧
        matchItem (pyLower query) it = some f := by
  simp only [performSearch, if_neg hq, List.mem_flatMap, List.mem_filterMap]
  constructor
  · rintro ⟨tl, htl, it, hit, hmap⟩
    rcases hm : matchItem (pyLower query) it with _ | g
    · rw [hm] at hmap
      simp at hmap
    · rw [hm] at hmap
      obtain ⟨h1, h2, h3⟩ : tl.id = lid ∧ it.id = iid ∧ g = f := by
        simpa [Prod.ext_iff] using hmap
      exact ⟨tl, htl, h1, it, hit, h2, by rw [hm, h3]⟩
  · rintro ⟨tl, htl, hid, it, hit, hiid, hm⟩
    exact ⟨tl, htl, it, hit, by rw [hm]; simp [hid, hiid]⟩

/-- C6: search over `get_all_lists()`. An empty or whitespace-only query
yields no results; each item contributes at most one result (so the result
count is bounded by the total item count); for a non-blank query an item
occurrence yields a result exactly when the lowered query occurs in its
lowered text or in one of its created/modified/validated timestamps
formatted as DD/MM/YYYY HH:MM:SS (`matchItem` is some iff `specMatches`),
and the reported field is the first matching one in the precedence order
text, created, modified, validated. -/
theorem search_contract (st : Store) (query : String) :
    (pyStrip query = "" → performSearch st query = []) ∧
      (performSearch st query).length ≤
        (st.getAllLists.map fun tl => tl.items.length).sum ∧
      (∀ it : ListItem,
        (matchItem (pyLower query) it).isSome = specMatches (pyLower query) it) ∧
      (∀ it : ListItem,
        (matchItem (pyLower query) it = some MatchField.text ↔
          specMatchesText (pyLower query) it = true) ∧
        (matchItem (pyLower query) it = some MatchField.created ↔
          specMatchesText (pyLower query) it = false ∧
            specMatchesCreated (pyLower query) it = true) ∧
        (matchItem (pyLower query) it = some MatchField.modified ↔
          specMatchesText (pyLower query) it = false ∧
            specMatchesCreated (pyLower query) it = false ∧
            specMatchesModified (pyLower query) it = true) ∧
        (matchItem (pyLower query) it = some MatchField.validated ↔
          specMatchesText (pyLower query) it = false ∧
            specMatchesCreated (pyLower query) it = false ∧
            specMatchesModified (pyLower query) it = false ∧
            specMatchesValidated (pyLower query) it = true)) ∧
      (¬ pyStrip query = "" → ∀ (lid iid : String) (f : MatchField),
        (lid, iid, f) ∈ performSearch st query ↔
          ∃ tl, tl ∈ st.getAllLists ∧ tl.id = lid ∧
            ∃ it, it ∈ tl.items ∧ it.id = iid ∧
              matchItem (pyLower query) it = some f) := by
  refine ⟨?_, performSearch_length_le st query,
    fun it => matchItem_isSome (pyLower query) it,
    fun it => matchItem_precedence (pyLower query) it,
    fun hq lid iid f => performSearch_mem st query hq lid iid f⟩
  intro hq
  simp [performSearch, hq]

/-- An item whose created timestamp matches "2024" though its text does not. -/
def c6item : ListItem :=
  { id := "i1", text := "Buy Milk", created_at := "2024-03-05T10:20:30.123456",
    modified_at := "2024-03-05T10:20:30.123456", validated_at := none,
    is_validated := false }

/-- Store for the C6 witness. -/
def c6store : Store :=
  { settings := {}, lists := [TodoList.mk "L" "W" "#fff" [c6item]], clipboard_list := none }

/-- Witness for C6: at a concrete store, the blank query gives no results
and the timestamp query "2024" produces exactly the created-timestamp
match, obtained through the search contract. -/
theorem search_contract_witness :
    performSearch c6store "   " = [] ∧
      ((("L", "i1", MatchField.created) ∈ performSearch c6store "2024") ↔
        ∃ tl, tl ∈ c6store.getAllLists ∧ tl.id = "L" ∧
          ∃ it, it ∈ tl.items ∧ it.id = "i1" ∧
            matchItem (pyLower "2024") it = some MatchField.created) :=
  ⟨(search_contract c6store "   ").1 (by decide),
    (search_contract c6store "2024").2.2.2.2 (by decide) "L" "i1" MatchField.created⟩
